import Mathlib

/-
Verification development for natwest-balance-checker.

The program (src/natwest_account_fetcher.py) is a sequential Open Banking
client: it obtains a client-credentials token, creates a consent, walks the
sandbox auto-approval redirect chain for an authorization code, exchanges the
code for a user token, then fetches and displays accounts, balances and
transactions.

Embedding conventions:
- Every HTTP call is one HttpResult input, supplied by an Env record: either
  a raised requests.exceptions.RequestException (HttpResult.exn) or a
  response with status code, optional Location header, and a body that is
  either decodable JSON (some j) or not (none).  A body of none makes
  response.json() raise requests JSONDecodeError, which is a
  RequestException and is caught by the except clauses of the source.
- Python exceptions that are NOT RequestException (AttributeError from
  calling .get on a non-dict, TypeError from the in operator or indexing
  with a string, IndexError from indexing an empty list) escape the except
  clauses; they are modelled as Except.error.
- Each client method has the uniform shape
  ClientState -> inputs -> Except PyExn (ClientState x result x List Call),
  where the returned state reflects exactly the assignments to self in the
  source, and the List Call logs the HTTP requests made.
- Console output of display_account_details is modelled as a list of
  structured render events; fixed banner lines carry no data and are
  abstracted away (the spec excludes console formatting).
-/

/-- Model of a decoded JSON value, as produced by response.json(). Numbers
are modelled as integers; the program never inspects a numeric field. -/
inductive Json where
  | null : Json
  | bool (b : Bool) : Json
  | num (n : Int) : Json
  | str (s : String) : Json
  | arr (xs : List Json) : Json
  | obj (fields : List (String × Json)) : Json

/-- Python dict lookup on the field list of a JSON object; first binding
wins (decoded JSON objects have unique keys). -/
def lookupField : List (String × Json) → String → Option Json
  | [], _ => none
  | (k, v) :: rest, key => if k = key then some v else lookupField rest key

/-- Python exceptions, other than RequestException, that the source can
raise out of its methods. -/
inductive PyExn where
  | attributeError : PyExn
  | typeError : PyExn
  | indexError : PyExn

/-- Result of one HTTP request made through the requests library. -/
inductive HttpResult where
  | exn : HttpResult
  | resp (status : Nat) (location : Option String) (body : Option Json) : HttpResult

/-- Python truthiness of an Optional JSON value: None, null, False, zero,
empty string, empty list and empty dict are falsy. -/
def pyTruthy : Option Json → Bool
  | none => false
  | some .null => false
  | some (.bool b) => b
  | some (.num n) => n != 0
  | some (.str s) => s != ""
  | some (.arr xs) => !xs.isEmpty
  | some (.obj fs) => !fs.isEmpty

/-- Python truthiness of an Optional string. -/
def pyTruthyStr : Option String → Bool
  | none => false
  | some s => s != ""

/-- Python value.get(key): the mapped value when the receiver is a dict,
None when the key is absent; AttributeError when the receiver is not a
dict. -/
def pyDictGet : Json → String → Except PyExn (Option Json)
  | .obj fs, key => .ok (lookupField fs key)
  | _, _ => .error .attributeError

/-- requests Response.raise_for_status raises HTTPError exactly for status
codes in the interval [400, 600); informational and redirect statuses do
not raise. -/
def raiseForStatus (status : Nat) : Bool :=
  decide (400 ≤ status) && decide (status < 600)

/-- Helper for Python str.split with a non-empty separator: the part of s
before the first occurrence of sep and the part after it, or none when sep
does not occur in s. -/
def findSplit (sep : List Char) : List Char → Option (List Char × List Char)
  | [] => if sep.isEmpty then some ([], []) else none
  | c :: rest =>
    if sep.isPrefixOf (c :: rest) then some ([], (c :: rest).drop sep.length)
    else
      match findSplit sep rest with
      | some (pre, post) => some (c :: pre, post)
      | none => none

/-- Python s.split(sep)[0] for a non-empty separator: the part of s before
the first occurrence of sep, or all of s when sep does not occur. -/
def splitBefore (sep s : List Char) : List Char :=
  match findSplit sep s with
  | none => s
  | some (pre, _) => pre

/-- Python substring containment test, sep in s. -/
def strContains (sep s : String) : Bool :=
  (findSplit sep.toList s.toList).isSome

/-- The authorization-code extraction of authorize_consent
(natwest_account_fetcher.py lines 172, 195 and 218):
location.split("code=")[1].split("&")[0].
Python split(sep)[1] is the text between the first and the second
occurrence of sep (or up to the end when sep occurs once); the callers
guard the expression with a containment test, so the none branch, which
stands for the IndexError of [1], is never reached there. -/
def pyExtractCode (s : String) : Option String :=
  match findSplit "code=".toList s.toList with
  | none => none
  | some (_, post) =>
    some (String.mk (splitBefore [ '&' ] (splitBefore "code=".toList post)))

/-- Claim-side definition for C3, following the words of the claim: the
substring strictly between the first occurrence of "code=" and the next "&"
(or the end of the string), with no other truncation.  Compared with
pyExtractCode, which also truncates at a second occurrence of "code=". -/
def claimBetween (s : String) : Option String :=
  match findSplit "code=".toList s.toList with
  | none => none
  | some (_, post) => some (String.mk (splitBefore [ '&' ] post))

/-- Tags naming the HTTP requests of one run.  The second authorization
request records the URL it is sent to, the token exchange the code it
posts, the per-account requests the account identifier in their URL. -/
inductive Call where
  | token : Call
  | consent : Call
  | authorizeFirst : Call
  | authorizeSecond (url : String) : Call
  | exchange (code : String) : Call
  | accounts : Call
  | balances (accountId : Option Json) : Call
  | transactions (accountId : Option Json) : Call

/-- Configuration values imported from config.py. -/
structure Config where
  client_id : String
  client_secret : String
  redirect_uri : String
  test_username : String
  base_url : String
  auth_base_url : String
  api_version : String

/-- Mutable state of NatWestAPIClient
(natwest_account_fetcher.py lines 37 to 45). -/
structure ClientState where
  client_id : String
  client_secret : String
  redirect_uri : String
  base_url : String
  auth_base_url : String
  access_token : Option Json
  consent_id : Option Json

/-- NatWestAPIClient constructor: stores the configuration and initialises
access_token and consent_id to None (lines 39 to 45). -/
def initClient (cfg : Config) : ClientState :=
  { client_id := cfg.client_id
    client_secret := cfg.client_secret
    redirect_uri := cfg.redirect_uri
    base_url := cfg.base_url
    auth_base_url := cfg.auth_base_url
    access_token := none
    consent_id := none }

/-- Responses supplied by the sandbox server for one run. -/
structure Env where
  tokenResp : HttpResult
  consentResp : HttpResult
  authResp : HttpResult
  authSecondResp : String → HttpResult
  exchangeResp : String → HttpResult
  accountsResp : HttpResult
  balancesResp : Option Json → HttpResult
  transactionsResp : Option Json → HttpResult

/-- get_client_credentials_token (lines 47 to 82): POST to the token
endpoint; raise_for_status and json() failures are RequestExceptions and
yield False; on success stores token_data.get("access_token") into
self.access_token and returns True.  A JSON body that is not an object
makes .get raise AttributeError, which is not caught. -/
def get_client_credentials_token (st : ClientState) (r : HttpResult) :
    Except PyExn (ClientState × Bool × List Call) :=
  match r with
  | .exn => .ok (st, false, [Call.token])
  | .resp status _ body =>
    if raiseForStatus status then .ok (st, false, [Call.token])
    else
      match body with
      | none => .ok (st, false, [Call.token])
      | some j =>
        match j with
        | .obj fs =>
          .ok ({ st with access_token := lookupField fs "access_token" }, true,
            [Call.token])
        | _ => .error .attributeError

/-- create_account_consent (lines 84 to 133): POST of the fixed permission
payload; on success stores consent_data.get("Data", O).get("ConsentId")
into self.consent_id, with O the empty dict, and returns it; failures yield
None.  The .get chain raises AttributeError on non-dict receivers. -/
def create_account_consent (st : ClientState) (r : HttpResult) :
    Except PyExn (ClientState × Option Json × List Call) :=
  match r with
  | .exn => .ok (st, none, [Call.consent])
  | .resp status _ body =>
    if raiseForStatus status then .ok (st, none, [Call.consent])
    else
      match body with
      | none => .ok (st, none, [Call.consent])
      | some j =>
        match pyDictGet j "Data" with
        | .error e => .error e
        | .ok d =>
          match pyDictGet (d.getD (Json.obj [])) "ConsentId" with
          | .error e => .error e
          | .ok cid => .ok ({ st with consent_id := cid }, cid, [Call.consent])

/-- Status codes treated as redirects by authorize_consent
(lines 166 and 213): 302, 303, 307, 308. -/
def isRedirectStatus (s : Nat) : Bool :=
  s == 302 || s == 303 || s == 307 || s == 308

/-- Python equality of a decoded JSON value with a string: true exactly for
the equal string. -/
def jsonEqStr (v : Json) (s : String) : Bool :=
  match v with
  | .str t => t == s
  | _ => false

/-- The two requests logged when authorize_consent follows the first
redirect with a second GET to url. -/
def authCalls (url : String) : List Call :=
  [Call.authorizeFirst, Call.authorizeSecond url]

/-- Handling of the second authorization response (lines 181 to 228), with
loc the Location of the first redirect that the second GET was sent to. -/
def authSecondStep (st : ClientState) (loc : String) :
    HttpResult → Except PyExn (ClientState × Option String × List Call)
  | .exn => .ok (st, none, authCalls loc)
  | .resp status2 loc2 body2 =>
    if status2 == 200 then
      match body2 with
      | none => .ok (st, none, authCalls loc)
      | some j =>
        match j with
        | .obj fs =>
          match lookupField fs "redirectUri" with
          | none => .ok (st, none, authCalls loc)
          | some v =>
            match v with
            | .str u =>
              if strContains "code=" u then
                .ok (st, pyExtractCode u, authCalls loc)
              else
                .ok (st, none, authCalls loc)
            | .arr xs =>
              if xs.any (fun x => jsonEqStr x "code=") then .error .attributeError
              else .ok (st, none, authCalls loc)
            | .obj fs2 =>
              if fs2.any (fun p => p.1 == "code=") then .error .attributeError
              else .ok (st, none, authCalls loc)
            | _ => .error .typeError
        | .str s =>
          if strContains "redirectUri" s then .error .typeError
          else .ok (st, none, authCalls loc)
        | .arr xs =>
          if xs.any (fun x => jsonEqStr x "redirectUri") then .error .typeError
          else .ok (st, none, authCalls loc)
        | _ => .error .typeError
    else if isRedirectStatus status2 then
      if strContains "code=" (loc2.getD "") then
        .ok (st, pyExtractCode (loc2.getD ""), authCalls loc)
      else
        .ok (st, none, authCalls loc)
    else .ok (st, none, authCalls loc)

/-- authorize_consent (lines 135 to 236).  First GET issued without
following redirects.  On a redirect status: extract the code from the
Location header when present; otherwise issue a second GET to that
location and hand its response to authSecondStep.  A 200 second response
is parsed as JSON and its redirectUri field is mined for a code; a
redirect second response has its Location mined; anything else yields
None.  The Python membership test "redirectUri" in json_response raises
TypeError on numbers, booleans and null; succeeding it on a string or list
body and then indexing with the string key raises TypeError; a redirectUri
value that is not a string raises TypeError at the "code=" in redirect_uri
test (or AttributeError at .split for lists and dicts containing a "code="
entry). -/
def authorize_consent (st : ClientState) (r1 : HttpResult)
    (second : String → HttpResult) :
    Except PyExn (ClientState × Option String × List Call) :=
  match r1 with
  | .exn => .ok (st, none, [Call.authorizeFirst])
  | .resp status1 loc1 _ =>
    if isRedirectStatus status1 then
      if strContains "code=" (loc1.getD "") then
        .ok (st, pyExtractCode (loc1.getD ""), [Call.authorizeFirst])
      else
        authSecondStep st (loc1.getD "") (second (loc1.getD ""))
    else .ok (st, none, [Call.authorizeFirst])

/-- exchange_authorization_code (lines 238 to 274): POST of the code to the
token endpoint; same handling as get_client_credentials_token, overwriting
self.access_token on success. -/
def exchange_authorization_code (st : ClientState) (code : String) (r : HttpResult) :
    Except PyExn (ClientState × Bool × List Call) :=
  match r with
  | .exn => .ok (st, false, [Call.exchange code])
  | .resp status _ body =>
    if raiseForStatus status then .ok (st, false, [Call.exchange code])
    else
      match body with
      | none => .ok (st, false, [Call.exchange code])
      | some j =>
        match j with
        | .obj fs =>
          .ok ({ st with access_token := lookupField fs "access_token" }, true,
            [Call.exchange code])
        | _ => .error .attributeError

/-- get_accounts (lines 276 to 302): GET of the accounts resource; on
success returns accounts_data.get("Data", O).get("Account", E) with O the
empty dict and E the empty list; failures yield None. -/
def get_accounts (st : ClientState) (r : HttpResult) :
    Except PyExn (ClientState × Option Json × List Call) :=
  match r with
  | .exn => .ok (st, none, [Call.accounts])
  | .resp status _ body =>
    if raiseForStatus status then .ok (st, none, [Call.accounts])
    else
      match body with
      | none => .ok (st, none, [Call.accounts])
      | some j =>
        match pyDictGet j "Data" with
        | .error e => .error e
        | .ok d =>
          match pyDictGet (d.getD (Json.obj [])) "Account" with
          | .error e => .error e
          | .ok accs => .ok (st, some (accs.getD (Json.arr [])), [Call.accounts])

/-- get_account_balances (lines 304 to 322): GET of the balances
sub-resource of one account; on success returns
balance_data.get("Data", O).get("Balance", E); failures yield None. -/
def get_account_balances (st : ClientState) (accountId : Option Json)
    (r : HttpResult) : Except PyExn (ClientState × Option Json × List Call) :=
  match r with
  | .exn => .ok (st, none, [Call.balances accountId])
  | .resp status _ body =>
    if raiseForStatus status then .ok (st, none, [Call.balances accountId])
    else
      match body with
      | none => .ok (st, none, [Call.balances accountId])
      | some j =>
        match pyDictGet j "Data" with
        | .error e => .error e
        | .ok d =>
          match pyDictGet (d.getD (Json.obj [])) "Balance" with
          | .error e => .error e
          | .ok bal => .ok (st, some (bal.getD (Json.arr [])), [Call.balances accountId])

/-- Python value[:limit] for a natural limit: slices lists and strings and
raises TypeError otherwise. -/
def pySlice (v : Json) (limit : Nat) : Except PyExn Json :=
  match v with
  | .arr xs => .ok (.arr (xs.take limit))
  | .str s => .ok (.str (String.mk (s.toList.take limit)))
  | _ => .error .typeError

/-- get_account_transactions (lines 324 to 343): GET of the transactions
sub-resource; on success returns
transaction_data.get("Data", O).get("Transaction", E) truncated to the
first limit entries; failures yield None. -/
def get_account_transactions (st : ClientState) (accountId : Option Json)
    (limit : Nat) (r : HttpResult) :
    Except PyExn (ClientState × Option Json × List Call) :=
  match r with
  | .exn => .ok (st, none, [Call.transactions accountId])
  | .resp status _ body =>
    if raiseForStatus status then .ok (st, none, [Call.transactions accountId])
    else
      match body with
      | none => .ok (st, none, [Call.transactions accountId])
      | some j =>
        match pyDictGet j "Data" with
        | .error e => .error e
        | .ok d =>
          match pyDictGet (d.getD (Json.obj [])) "Transaction" with
          | .error e => .error e
          | .ok t =>
            match pySlice (t.getD (Json.arr [])) limit with
            | .error e => .error e
            | .ok sliced => .ok (st, some sliced, [Call.transactions accountId])

/-- Structured render events standing for the data-bearing console prints of
display_account_details.  Fields hold the JSON values interpolated into the
prints; fields read with a default of "N/A" or of an empty dict are typed
Json, fields read with plain .get are typed Option Json. -/
inductive Ev where
  | accountHeader (idx : Nat) : Ev
  | accountInfo (accountId accountType accountSubType currency : Option Json)
      (nickname status : Json) : Ev
  | accountNumber (scheme ident : Option Json) (name : Json) : Ev
  | balancesHeader : Ev
  | balanceItem (balType : Option Json) (currency amount : Option Json)
      (indicator : Option Json) (date : Json) : Ev
  | transactionsHeader : Ev
  | transactionItem (idx : Nat) (date : Json) (sign : Char)
      (currency amount : Option Json) (indicator : Option Json)
      (info refText : Json) : Ev

/-- Python iteration over a decoded JSON value: lists yield their elements,
strings their characters, dicts their keys; numbers, booleans and null are
not iterable and raise TypeError. -/
def pyIterJson : Json → Except PyExn (List Json)
  | .arr xs => .ok xs
  | .str s => .ok (s.toList.map (fun c => Json.str (String.mk [c])))
  | .obj fs => .ok (fs.map (fun p => Json.str p.1))
  | _ => .error .typeError

/-- Python comparison of an Optional JSON value with a string: equal exactly
when the value is that string. -/
def jsonOptEqStr (v : Option Json) (s : String) : Bool :=
  match v with
  | some (.str t) => t == s
  | _ => false

/-- Balance loop of display_account_details (lines 379 to 387): one
balanceItem event per balance; .get on a non-dict balance or on a non-dict
Amount raises AttributeError. -/
def renderBalanceItems : List Json → Except PyExn (List Ev)
  | [] => .ok []
  | b :: rest =>
    match b with
    | .obj bfs =>
      match pyDictGet ((lookupField bfs "Amount").getD (Json.obj [])) "Currency" with
      | .error e => .error e
      | .ok cur =>
        match pyDictGet ((lookupField bfs "Amount").getD (Json.obj [])) "Amount" with
        | .error e => .error e
        | .ok amt =>
          match renderBalanceItems rest with
          | .error e => .error e
          | .ok evs =>
            .ok (Ev.balanceItem (lookupField bfs "Type") cur amt
              (lookupField bfs "CreditDebitIndicator")
              ((lookupField bfs "DateTime").getD (Json.str "N/A")) :: evs)
    | _ => .error .attributeError

/-- The balances block (lines 377 to 387): rendered only when the fetched
value is truthy, prefixed by its header event. -/
def renderBalances : Option Json → Except PyExn (List Ev)
  | none => .ok []
  | some v =>
    if pyTruthy (some v) then
      match pyIterJson v with
      | .error e => .error e
      | .ok items =>
        match renderBalanceItems items with
        | .error e => .error e
        | .ok evs => .ok (Ev.balancesHeader :: evs)
    else .ok []

/-- Transaction loop of display_account_details (lines 394 to 404),
numbering items from one: the printed sign is computed on line 397 as "+"
when CreditDebitIndicator equals the string Credit and "-" otherwise; .get
on a non-dict transaction or on a non-dict Amount raises AttributeError. -/
def renderTxnItems (idx : Nat) : List Json → Except PyExn (List Ev)
  | [] => .ok []
  | t :: rest =>
    match t with
    | .obj tfs =>
      match pyDictGet ((lookupField tfs "Amount").getD (Json.obj [])) "Currency" with
      | .error e => .error e
      | .ok cur =>
        match pyDictGet ((lookupField tfs "Amount").getD (Json.obj [])) "Amount" with
        | .error e => .error e
        | .ok amt =>
          match renderTxnItems (idx + 1) rest with
          | .error e => .error e
          | .ok evs =>
            .ok (Ev.transactionItem idx
              ((lookupField tfs "BookingDateTime").getD (Json.str "N/A"))
              (if jsonOptEqStr (lookupField tfs "CreditDebitIndicator") "Credit"
                then '+' else '-')
              cur amt (lookupField tfs "CreditDebitIndicator")
              ((lookupField tfs "TransactionInformation").getD (Json.str "N/A"))
              ((lookupField tfs "TransactionReference").getD (Json.str "N/A")) :: evs)
    | _ => .error .attributeError

/-- The transactions block (lines 392 to 404): rendered only when the
fetched value is truthy, prefixed by its header event. -/
def renderTxns : Option Json → Except PyExn (List Ev)
  | none => .ok []
  | some v =>
    if pyTruthy (some v) then
      match pyIterJson v with
      | .error e => .error e
      | .ok items =>
        match renderTxnItems 1 items with
        | .error e => .error e
        | .ok evs => .ok (Ev.transactionsHeader :: evs)
    else .ok []

/-- Rendering of the nested account-number details (lines 368 to 371) from
the selected acc_details value; .get on a non-dict raises AttributeError. -/
def renderAcctDetails (d : Json) : Except PyExn (List Ev) :=
  match d with
  | .obj dfs =>
    .ok [Ev.accountNumber (lookupField dfs "SchemeName")
      (lookupField dfs "Identification")
      ((lookupField dfs "Name").getD (Json.str "N/A"))]
  | _ => .error .attributeError

/-- The account-number block (lines 366 to 371): rendered only when the
Account key is present; a list-shaped value is indexed at zero, which
raises IndexError on an empty list; any non-list value is used as is. -/
def renderAcctNum (fs : List (String × Json)) : Except PyExn (List Ev) :=
  match lookupField fs "Account" with
  | none => .ok []
  | some (.arr []) => .error .indexError
  | some (.arr (x :: _)) => renderAcctDetails x
  | some w => renderAcctDetails w

/-- Body of the per-account loop of display_account_details
(lines 351 to 406) for the account at position idx, counted from one: the
identity prints, the optional account-number block, then the balance fetch
and block, then the transaction fetch and block.  A non-dict account makes
the first .get raise AttributeError. -/
def renderAccount (st : ClientState) (idx : Nat) (account : Json) (env : Env) :
    Except PyExn (ClientState × List Ev × List Call) :=
  match account with
  | .obj fs =>
    match renderAcctNum fs with
    | .error e => .error e
    | .ok numEvs =>
      match get_account_balances st (lookupField fs "AccountId")
          (env.balancesResp (lookupField fs "AccountId")) with
      | .error e => .error e
      | .ok (st1, bal, cb) =>
        match renderBalances bal with
        | .error e => .error e
        | .ok balEvs =>
          match get_account_transactions st1 (lookupField fs "AccountId") 5
              (env.transactionsResp (lookupField fs "AccountId")) with
          | .error e => .error e
          | .ok (st2, txns, ct) =>
            match renderTxns txns with
            | .error e => .error e
            | .ok txnEvs =>
              .ok (st2,
                Ev.accountHeader idx ::
                  Ev.accountInfo (lookupField fs "AccountId")
                    (lookupField fs "AccountType")
                    (lookupField fs "AccountSubType")
                    (lookupField fs "Currency")
                    ((lookupField fs "Nickname").getD (Json.str "N/A"))
                    ((lookupField fs "Status").getD (Json.str "N/A")) ::
                  (numEvs ++ balEvs ++ txnEvs),
                cb ++ ct)
  | _ => .error .attributeError

/-- The enumerate loop of display_account_details (line 351), threading the
client state and concatenating events and logged calls in order. -/
def renderLoop (st : ClientState) (idx : Nat) (accounts : List Json)
    (env : Env) : Except PyExn (ClientState × List Ev × List Call) :=
  match accounts with
  | [] => .ok (st, [], [])
  | a :: rest =>
    match renderAccount st idx a env with
    | .error e => .error e
    | .ok (st1, evs, cs) =>
      match renderLoop st1 (idx + 1) rest env with
      | .error e => .error e
      | .ok (st2, evs2, cs2) => .ok (st2, evs ++ evs2, cs ++ cs2)

/-- display_account_details (lines 345 to 406): iterates over the accounts
value handed over by main (a Python for statement, hence pyIterJson) and
renders each account in turn. -/
def display_account_details (st : ClientState) (accounts : Json) (env : Env) :
    Except PyExn (ClientState × List Ev × List Call) :=
  match pyIterJson accounts with
  | .error e => .error e
  | .ok l => renderLoop st 1 l env

/-- main (lines 409 to 462): the five steps in order, with sys.exit(1) on
the first falsy step result, modelled as result code 1; full success ends
with result code 0 (lines 460 to 462 and process exit).  Except.error
stands for an uncaught Python exception, which also terminates the process
with exit status 1. -/
def mainModel (cfg : Config) (env : Env) :
    Except PyExn (Nat × ClientState × List Call) :=
  match get_client_credentials_token (initClient cfg) env.tokenResp with
  | .error e => .error e
  | .ok (st1, okTok, c1) =>
    if okTok then
      match create_account_consent st1 env.consentResp with
      | .error e => .error e
      | .ok (st2, cid, c2) =>
        if pyTruthy cid then
          match authorize_consent st2 env.authResp env.authSecondResp with
          | .error e => .error e
          | .ok (st3, codeOpt, c3) =>
            match codeOpt with
            | none => .ok (1, st3, c1 ++ c2 ++ c3)
            | some code =>
              if code == "" then .ok (1, st3, c1 ++ c2 ++ c3)
              else
                match exchange_authorization_code st3 code (env.exchangeResp code) with
                | .error e => .error e
                | .ok (st4, okExch, c4) =>
                  if okExch then
                    match get_accounts st4 env.accountsResp with
                    | .error e => .error e
                    | .ok (st5, accsOpt, c5) =>
                      match accsOpt with
                      | none => .ok (1, st5, c1 ++ c2 ++ c3 ++ c4 ++ c5)
                      | some accs =>
                        if pyTruthy (some accs) then
                          match display_account_details st5 accs env with
                          | .error e => .error e
                          | .ok (st6, _evs, c6) =>
                            .ok (0, st6, c1 ++ c2 ++ c3 ++ c4 ++ c5 ++ c6)
                        else .ok (1, st5, c1 ++ c2 ++ c3 ++ c4 ++ c5)
                  else .ok (1, st4, c1 ++ c2 ++ c3 ++ c4)
        else .ok (1, st2, c1 ++ c2)
    else .ok (1, st1, c1)

/-- Exit status of the Python process for one outcome of main: the modelled
code on normal termination, and 1 for an uncaught exception traceback. -/
def pyExitOf : Except PyExn (Nat × ClientState × List Call) → Nat
  | .error _ => 1
  | .ok (n, _, _) => n

/-- Whole-program behaviour including the config import guard
(lines 15 to 31): a missing configuration exits with status 1 before any
network activity; otherwise main runs. -/
def run_program : Option Config → Env → Nat
  | none, _ => 1
  | some cfg, env => pyExitOf (mainModel cfg env)

/-- Calls that fetch a balances or transactions sub-resource. -/
def isBalTxnCall : Call → Bool
  | .balances _ => true
  | .transactions _ => true
  | _ => false

/-- The five steps of the run succeed in order, stated through the step
operations themselves: token obtained, consent created and truthy,
authorization code extracted and non-empty, code exchanged, accounts
fetched and truthy, and the display loop completes without an uncaught
exception. -/
def FiveStepsSucceed (cfg : Config) (env : Env) : Prop :=
  ∃ st1 c1 st2 cid c2 st3 code c3 st4 c4 st5 accs c5 st6 evs c6,
    get_client_credentials_token (initClient cfg) env.tokenResp = .ok (st1, true, c1) ∧
    create_account_consent st1 env.consentResp = .ok (st2, cid, c2) ∧
    pyTruthy cid = true ∧
    authorize_consent st2 env.authResp env.authSecondResp = .ok (st3, some code, c3) ∧
    code ≠ "" ∧
    exchange_authorization_code st3 code (env.exchangeResp code) = .ok (st4, true, c4) ∧
    get_accounts st4 env.accountsResp = .ok (st5, some accs, c5) ∧
    pyTruthy (some accs) = true ∧
    display_account_details st5 accs env = .ok (st6, evs, c6)

/-- True exactly for JSON objects. -/
def jsonIsObj : Json → Bool
  | .obj _ => true
  | _ => false

/-- True exactly for JSON arrays. -/
def jsonIsArr : Json → Bool
  | .arr _ => true
  | _ => false

/-- A fixed example configuration used by the concrete witnesses. -/
def cfgW : Config :=
  { client_id := "C_id"
    client_secret := "secret"
    redirect_uri := "http://balance-check.com"
    test_username := "123456789012"
    base_url := "https://ob.sandbox.natwest.com"
    auth_base_url := "https://api.sandbox.natwest.com"
    api_version := "v4.0" }

/-- The freshly constructed client of the witnesses. -/
def stW : ClientState := initClient cfgW

theorem get_account_balances_ok {st : ClientState} {aid : Option Json}
    {r : HttpResult} {st1 : ClientState} {b : Option Json} {c : List Call}
    (h : get_account_balances st aid r = .ok (st1, b, c)) :
    st1 = st ∧ c = [Call.balances aid] := by
  unfold get_account_balances at h
  repeat' split at h
  all_goals simp_all

theorem get_account_transactions_ok {st : ClientState} {aid : Option Json}
    {k : Nat} {r : HttpResult} {st1 : ClientState} {b : Option Json}
    {c : List Call}
    (h : get_account_transactions st aid k r = .ok (st1, b, c)) :
    st1 = st ∧ c = [Call.transactions aid] := by
  unfold get_account_transactions at h
  repeat' split at h
  all_goals simp_all

theorem get_accounts_ok {st : ClientState} {r : HttpResult} {st1 : ClientState}
    {b : Option Json} {c : List Call}
    (h : get_accounts st r = .ok (st1, b, c)) :
    st1 = st ∧ c = [Call.accounts] := by
  unfold get_accounts at h
  repeat' split at h
  all_goals simp_all

theorem get_client_credentials_token_frame {st : ClientState} {r : HttpResult}
    {st1 : ClientState} {b : Bool} {c : List Call}
    (h : get_client_credentials_token st r = .ok (st1, b, c)) :
    st1.consent_id = st.consent_id ∧ (b = false → st1 = st) ∧
      (b = true → ∃ fs, st1 = { st with access_token := lookupField fs "access_token" }) := by
  unfold get_client_credentials_token at h
  repeat' split at h
  all_goals simp_all
  obtain ⟨h1, h2, h3⟩ := h
  subst h1
  exact ⟨rfl, ⟨_, rfl⟩⟩

theorem exchange_authorization_code_frame {st : ClientState} {code : String}
    {r : HttpResult} {st1 : ClientState} {b : Bool} {c : List Call}
    (h : exchange_authorization_code st code r = .ok (st1, b, c)) :
    st1.consent_id = st.consent_id ∧ (b = false → st1 = st) ∧
      (b = true → ∃ fs, st1 = { st with access_token := lookupField fs "access_token" }) := by
  unfold exchange_authorization_code at h
  repeat' split at h
  all_goals simp_all
  obtain ⟨h1, h2, h3⟩ := h
  subst h1
  exact ⟨rfl, ⟨_, rfl⟩⟩

theorem create_account_consent_frame {st : ClientState} {r : HttpResult}
    {st1 : ClientState} {v : Option Json} {c : List Call}
    (h : create_account_consent st r = .ok (st1, v, c)) :
    st1.access_token = st.access_token ∧
      (st1 = st ∨ st1 = { st with consent_id := v }) := by
  unfold create_account_consent at h
  repeat' split at h
  all_goals simp_all
  obtain ⟨h1, h2, h3⟩ := h
  subst h2
  subst h1
  exact ⟨rfl, Or.inr rfl⟩

theorem authSecondStep_frame {st : ClientState} {loc : String}
    {r2 : HttpResult} {st1 : ClientState} {v : Option String} {c : List Call}
    (h : authSecondStep st loc r2 = .ok (st1, v, c)) : st1 = st := by
  unfold authSecondStep at h
  repeat' split at h
  all_goals simp_all

theorem authorize_consent_frame {st : ClientState} {r1 : HttpResult}
    {second : String → HttpResult} {st1 : ClientState} {v : Option String}
    {c : List Call}
    (h : authorize_consent st r1 second = .ok (st1, v, c)) : st1 = st := by
  unfold authorize_consent at h
  repeat' split at h
  all_goals first
    | exact authSecondStep_frame h
    | simp_all

theorem renderAccount_frame {st : ClientState} {idx : Nat} {a : Json}
    {env : Env} {st1 : ClientState} {evs : List Ev} {c : List Call}
    (h : renderAccount st idx a env = .ok (st1, evs, c)) : st1 = st := by
  unfold renderAccount at h
  repeat' split at h
  all_goals simp_all
  exact (get_account_transactions_ok (by assumption)).1.trans
    (get_account_balances_ok (by assumption)).1

theorem renderLoop_frame {st : ClientState} {idx : Nat} {l : List Json}
    {env : Env} {st1 : ClientState} {evs : List Ev} {c : List Call}
    (h : renderLoop st idx l env = .ok (st1, evs, c)) : st1 = st := by
  induction l generalizing st idx evs c with
  | nil => unfold renderLoop at h; simp_all
  | cons a rest ih =>
    unfold renderLoop at h
    repeat' split at h
    all_goals simp_all
    exact (ih (by assumption)).trans (renderAccount_frame (by assumption))

theorem display_account_details_frame {st : ClientState} {accounts : Json}
    {env : Env} {st1 : ClientState} {evs : List Ev} {c : List Call}
    (h : display_account_details st accounts env = .ok (st1, evs, c)) :
    st1 = st := by
  unfold display_account_details at h
  repeat' split at h
  all_goals first
    | simp_all
    | exact renderLoop_frame h

/-- A fixed example environment in which all five steps succeed: the first
authorization response is already a redirect carrying a code, and the
per-account balance and transaction fetches fail over the network (which
display_account_details tolerates). -/
def envW : Env :=
  { tokenResp := .resp 200 none (some (.obj [("access_token", .str "tok1")]))
    consentResp := .resp 201 none (some (.obj [("Data", .obj [("ConsentId", .str "cid")])]))
    authResp := .resp 302 (some "http://balance-check.com?code=AC&state=ABC") none
    authSecondResp := fun _ => .exn
    exchangeResp := fun _ => .resp 200 none (some (.obj [("access_token", .str "tok2")]))
    accountsResp := .resp 200 none (some (.obj [("Data", .obj [("Account",
      .arr [.obj [("AccountId", .str "a1")]])])]))
    balancesResp := fun _ => .exn
    transactionsResp := fun _ => .exn }

/-- C9: over a whole run the consent_id field is written by
create_account_consent only, and access_token is written exactly by
get_client_credentials_token and exchange_authorization_code: the two token
operations keep consent_id, keep the whole state on failure and overwrite
access_token from the response body on success; create_account_consent
keeps access_token and either keeps the state or sets consent_id to the
value it returns; authorize_consent, get_accounts, get_account_balances,
get_account_transactions and display_account_details return the state they
were given. -/
theorem C9_field_writers :
    (∀ st r st1 b c, get_client_credentials_token st r = .ok (st1, b, c) →
      st1.consent_id = st.consent_id ∧ (b = false → st1 = st) ∧
        (b = true → ∃ fs, st1 = { st with access_token := lookupField fs "access_token" })) ∧
    (∀ st r st1 v c, create_account_consent st r = .ok (st1, v, c) →
      st1.access_token = st.access_token ∧
        (st1 = st ∨ st1 = { st with consent_id := v })) ∧
    (∀ st r1 second st1 v c, authorize_consent st r1 second = .ok (st1, v, c) →
      st1 = st) ∧
    (∀ st code r st1 b c, exchange_authorization_code st code r = .ok (st1, b, c) →
      st1.consent_id = st.consent_id ∧ (b = false → st1 = st) ∧
        (b = true → ∃ fs, st1 = { st with access_token := lookupField fs "access_token" })) ∧
    (∀ st r st1 v c, get_accounts st r = .ok (st1, v, c) → st1 = st) ∧
    (∀ st aid r st1 v c, get_account_balances st aid r = .ok (st1, v, c) → st1 = st) ∧
    (∀ st aid k r st1 v c, get_account_transactions st aid k r = .ok (st1, v, c) → st1 = st) ∧
    (∀ st accounts env st1 evs c, display_account_details st accounts env = .ok (st1, evs, c) →
      st1 = st) :=
  ⟨fun _ _ _ _ _ h => get_client_credentials_token_frame h,
   fun _ _ _ _ _ h => create_account_consent_frame h,
   fun _ _ _ _ _ _ h => authorize_consent_frame h,
   fun _ _ _ _ _ _ h => exchange_authorization_code_frame h,
   fun _ _ _ _ _ h => (get_accounts_ok h).1,
   fun _ _ _ _ _ _ h => (get_account_balances_ok h).1,
   fun _ _ _ _ _ _ _ h => (get_account_transactions_ok h).1,
   fun _ _ _ _ _ _ h => display_account_details_frame h⟩

/-- Witness for C9 at a concrete successful token call: the stored consent
identifier is untouched and the new state is the old one with access_token
overwritten from the response body. -/
theorem C9_field_writers_witness :
    ({ stW with access_token := some (Json.str "t") } : ClientState).consent_id =
        stW.consent_id ∧
      (true = false → ({ stW with access_token := some (Json.str "t") } : ClientState) = stW) ∧
      (true = true → ∃ fs, ({ stW with access_token := some (Json.str "t") } : ClientState) =
        { stW with access_token := lookupField fs "access_token" }) :=
  C9_field_writers.1 stW (.resp 200 none (some (.obj [("access_token", .str "t")])))
    { stW with access_token := some (Json.str "t") } true [Call.token] (by rfl)

/-- C4: on a successful response whose Data.Transaction field is an array,
get_account_transactions with limit k returns exactly the first elements of
that array, of length min k n, in their original order (List.take), leaving
the state untouched. -/
theorem C4_transactions_take (st : ClientState) (accountId : Option Json)
    (k : Nat) (status : Nat) (loc : Option String)
    (fs dfs : List (String × Json)) (txns : List Json)
    (h2xx : 200 ≤ status ∧ status < 300)
    (hData : lookupField fs "Data" = some (.obj dfs))
    (hTxn : lookupField dfs "Transaction" = some (.arr txns)) :
    get_account_transactions st accountId k (.resp status loc (some (.obj fs))) =
      .ok (st, some (.arr (txns.take k)), [Call.transactions accountId]) ∧
    (txns.take k).length = min k txns.length := by
  have hrs : raiseForStatus status = false := by
    simp only [raiseForStatus, Bool.and_eq_false_iff, decide_eq_false_iff_not]
    omega
  constructor
  · unfold get_account_transactions
    simp [hrs, pyDictGet, hData, hTxn, pySlice]
  · simp [List.length_take]

/-- Witness for C4: ten upstream transactions and limit five give exactly
the first five. -/
theorem C4_transactions_take_witness :
    get_account_transactions stW (some (.str "a1")) 5
        (.resp 200 none (some (.obj [("Data", .obj [("Transaction",
          .arr ((List.range 10).map Json.num))])]))) =
      .ok (stW, some (.arr (((List.range 10).map Json.num).take 5)),
        [Call.transactions (some (.str "a1"))]) ∧
    (((List.range 10).map (fun n => Json.num n)).take 5).length =
      min 5 ((List.range 10).map (fun n => Json.num n)).length :=
  C4_transactions_take stW (some (.str "a1")) 5 200 none _ _ _
    ⟨by decide, by decide⟩ (by rfl) (by rfl)

/-- C7 counterexample: the claim says get_client_credentials_token returns
a failure boolean exactly on a non-2xx response or network error.  A 302
response is neither 2xx nor an error, yet raise_for_status does not raise
for it (it raises only for 4xx and 5xx), so the call succeeds, stores the
token from the body and returns True. -/
theorem C7_counterexample :
    get_client_credentials_token stW
        (.resp 302 none (some (.obj [("access_token", Json.str "tok")]))) =
      .ok ({ stW with access_token := some (Json.str "tok") }, true, [Call.token]) ∧
    ¬ (200 ≤ 302 ∧ 302 < 300) :=
  ⟨by rfl, by decide⟩

/-- C7 amended: get_client_credentials_token returns False exactly on a
network error, a 4xx or 5xx status, or a body that does not parse as JSON;
on any other status with a JSON object body it returns True and stores the
access_token field of the body (None when absent) into the client state; a
JSON body that is not an object raises an uncaught AttributeError.  No
other exception reaches the caller. -/
theorem C7_token_result :
    (∀ st, get_client_credentials_token st .exn = .ok (st, false, [Call.token])) ∧
    (∀ st status loc body, raiseForStatus status = true →
      get_client_credentials_token st (.resp status loc body) =
        .ok (st, false, [Call.token])) ∧
    (∀ st status loc, raiseForStatus status = false →
      get_client_credentials_token st (.resp status loc none) =
        .ok (st, false, [Call.token])) ∧
    (∀ st status loc fs, raiseForStatus status = false →
      get_client_credentials_token st (.resp status loc (some (.obj fs))) =
        .ok ({ st with access_token := lookupField fs "access_token" }, true,
          [Call.token])) ∧
    (∀ st status loc j, raiseForStatus status = false → jsonIsObj j = false →
      get_client_credentials_token st (.resp status loc (some j)) =
        .error .attributeError) := by
  refine ⟨fun st => rfl, ?_, ?_, ?_, ?_⟩
  · intro st status loc body h
    unfold get_client_credentials_token
    cases body <;> simp [h]
  · intro st status loc h
    unfold get_client_credentials_token
    simp [h]
  · intro st status loc fs h
    unfold get_client_credentials_token
    simp [h]
  · intro st status loc j h hj
    unfold get_client_credentials_token
    cases j <;> simp_all [jsonIsObj]

/-- Witness for C7 amended: a 2xx response with a JSON object body
succeeds and stores the token. -/
theorem C7_token_result_witness :
    raiseForStatus 200 = false ∧
    get_client_credentials_token stW
        (.resp 200 none (some (.obj [("access_token", Json.str "t2")]))) =
      .ok ({ stW with access_token := lookupField [("access_token", Json.str "t2")] "access_token" },
        true, [Call.token]) :=
  ⟨by decide, C7_token_result.2.2.2.1 stW 200 none [("access_token", Json.str "t2")] (by decide)⟩

/-- C10: in the account-number block, a present Account field is used as is
when it is not a list and indexed at element zero when it is a list; on a
list value the access is in bounds only when the list is non-empty, and an
account whose Account field is the empty list makes the rendering, and
hence the whole display call, raise IndexError. -/
theorem C10_account_number_indexing :
    (∀ fs w, lookupField fs "Account" = some w → jsonIsArr w = false →
      renderAcctNum fs = renderAcctDetails w) ∧
    (∀ fs x xs, lookupField fs "Account" = some (.arr (x :: xs)) →
      renderAcctNum fs = renderAcctDetails x) ∧
    (∀ fs, lookupField fs "Account" = some (.arr []) →
      renderAcctNum fs = .error .indexError) ∧
    (∀ st env fs, lookupField fs "Account" = some (.arr []) →
      display_account_details st (.arr [Json.obj fs]) env = .error .indexError) := by
  have h3 : ∀ fs : List (String × Json), lookupField fs "Account" = some (.arr []) →
      renderAcctNum fs = .error .indexError := by
    intro fs h
    unfold renderAcctNum
    rw [h]
  refine ⟨?_, ?_, h3, ?_⟩
  · intro fs w h hw
    unfold renderAcctNum
    rw [h]
    cases w <;> simp_all [jsonIsArr]
  · intro fs x xs h
    unfold renderAcctNum
    rw [h]
  · intro st env fs h
    have hnum := h3 fs h
    simp [display_account_details, pyIterJson, renderLoop, renderAccount, hnum]

/-- Witness for C10: one account whose Account field is the empty list
makes display_account_details raise IndexError. -/
theorem C10_account_number_indexing_witness :
    display_account_details stW (.arr [Json.obj [("Account", Json.arr [])]]) envW =
      .error .indexError :=
  C10_account_number_indexing.2.2.2 stW envW [("Account", Json.arr [])] (by rfl)

/-- Sign correctness of one render event: a transaction line carries the
sign computed from its own CreditDebitIndicator as on source line 397; any
other event is unconstrained. -/
def signOk : Ev → Prop
  | .transactionItem _ _ s _ _ ind _ _ => s = (if jsonOptEqStr ind "Credit" then '+' else '-')
  | _ => True

theorem renderBalanceItems_signOk {items : List Json} {evs : List Ev}
    (h : renderBalanceItems items = .ok evs) : ∀ e ∈ evs, signOk e := by
  induction items generalizing evs with
  | nil =>
    unfold renderBalanceItems at h
    simp only [Except.ok.injEq] at h
    subst h
    simp
  | cons b rest ih =>
    unfold renderBalanceItems at h
    repeat' split at h
    all_goals (try (exact Except.noConfusion h))
    simp only [Except.ok.injEq] at h
    subst h
    intro e he
    rcases List.mem_cons.mp he with rfl | ht
    · exact trivial
    · exact ih (by assumption) e ht

theorem renderTxnItems_signOk {idx : Nat} {items : List Json} {evs : List Ev}
    (h : renderTxnItems idx items = .ok evs) : ∀ e ∈ evs, signOk e := by
  induction items generalizing idx evs with
  | nil =>
    unfold renderTxnItems at h
    simp only [Except.ok.injEq] at h
    subst h
    simp
  | cons t rest ih =>
    unfold renderTxnItems at h
    repeat' split at h
    all_goals (try (exact Except.noConfusion h))
    all_goals simp only [Except.ok.injEq] at h
    all_goals subst h
    all_goals intro e he
    all_goals rcases List.mem_cons.mp he with rfl | ht
    all_goals first
      | exact ih (by assumption) e ht
      | simp [signOk, *]

theorem renderBalances_signOk {bal : Option Json} {evs : List Ev}
    (h : renderBalances bal = .ok evs) : ∀ e ∈ evs, signOk e := by
  unfold renderBalances at h
  repeat' split at h
  all_goals (try (exact Except.noConfusion h))
  all_goals simp only [Except.ok.injEq] at h
  all_goals subst h
  all_goals intro e he
  all_goals first
    | (rcases List.mem_cons.mp he with rfl | ht
       exacts [trivial, renderBalanceItems_signOk (by assumption) e ht])
    | simp at he

theorem renderTxns_signOk {t : Option Json} {evs : List Ev}
    (h : renderTxns t = .ok evs) : ∀ e ∈ evs, signOk e := by
  unfold renderTxns at h
  repeat' split at h
  all_goals (try (exact Except.noConfusion h))
  all_goals simp only [Except.ok.injEq] at h
  all_goals subst h
  all_goals intro e he
  all_goals first
    | (rcases List.mem_cons.mp he with rfl | ht
       exacts [trivial, renderTxnItems_signOk (by assumption) e ht])
    | simp at he

theorem renderAcctDetails_signOk {d : Json} {evs : List Ev}
    (h : renderAcctDetails d = .ok evs) : ∀ e ∈ evs, signOk e := by
  unfold renderAcctDetails at h
  repeat' split at h
  all_goals (try (exact Except.noConfusion h))
  all_goals simp only [Except.ok.injEq] at h
  all_goals subst h
  all_goals intro e he
  all_goals rcases List.mem_cons.mp he with rfl | ht
  · exact trivial
  · simp at ht

theorem renderAcctNum_signOk {fs : List (String × Json)} {evs : List Ev}
    (h : renderAcctNum fs = .ok evs) : ∀ e ∈ evs, signOk e := by
  unfold renderAcctNum at h
  repeat' split at h
  all_goals first
    | exact renderAcctDetails_signOk h
    | (simp only [Except.ok.injEq] at h; subst h; simp)
    | exact Except.noConfusion h

theorem renderAccount_signOk {st : ClientState} {idx : Nat} {a : Json}
    {env : Env} {st1 : ClientState} {evs : List Ev} {c : List Call}
    (h : renderAccount st idx a env = .ok (st1, evs, c)) : ∀ e ∈ evs, signOk e := by
  unfold renderAccount at h
  repeat' split at h
  all_goals (try (exact Except.noConfusion h))
  simp only [Except.ok.injEq, Prod.mk.injEq] at h
  obtain ⟨h1, h2, h3⟩ := h
  subst h2
  intro e he
  rcases List.mem_cons.mp he with rfl | he1
  · exact trivial
  rcases List.mem_cons.mp he1 with rfl | he2
  · exact trivial
  rcases List.mem_append.mp he2 with he3 | he4
  rcases List.mem_append.mp he3 with he5 | he6
  · exact renderAcctNum_signOk (by assumption) e he5
  · exact renderBalances_signOk (by assumption) e he6
  · exact renderTxns_signOk (by assumption) e he4

theorem renderLoop_signOk {st : ClientState} {idx : Nat} {l : List Json}
    {env : Env} {st1 : ClientState} {evs : List Ev} {c : List Call}
    (h : renderLoop st idx l env = .ok (st1, evs, c)) : ∀ e ∈ evs, signOk e := by
  induction l generalizing st idx st1 evs c with
  | nil =>
    unfold renderLoop at h
    simp only [Except.ok.injEq, Prod.mk.injEq] at h
    obtain ⟨h1, h2, h3⟩ := h
    subst h2
    simp
  | cons a rest ih =>
    unfold renderLoop at h
    repeat' split at h
    all_goals (try (exact Except.noConfusion h))
    simp only [Except.ok.injEq, Prod.mk.injEq] at h
    obtain ⟨h1, h2, h3⟩ := h
    subst h2
    intro e he
    rcases List.mem_append.mp he with he1 | he2
    · exact renderAccount_signOk (by assumption) e he1
    · exact ih (by assumption) e he2

theorem display_signOk {st : ClientState} {accounts : Json} {env : Env}
    {st1 : ClientState} {evs : List Ev} {c : List Call}
    (h : display_account_details st accounts env = .ok (st1, evs, c)) :
    ∀ e ∈ evs, signOk e := by
  unfold display_account_details at h
  repeat' split at h
  all_goals first
    | exact renderLoop_signOk h
    | exact Except.noConfusion h

/-- C8: every transaction line rendered by display_account_details carries
a plus sign exactly when the CreditDebitIndicator of that transaction
equals the string Credit, and a minus sign in every other case. -/
theorem C8_transaction_sign (st : ClientState) (accounts : Json) (env : Env)
    (st1 : ClientState) (evs : List Ev) (cs : List Call)
    (h : display_account_details st accounts env = .ok (st1, evs, cs)) :
    ∀ i date sign cur amt ind info refv,
      Ev.transactionItem i date sign cur amt ind info refv ∈ evs →
      sign = (if jsonOptEqStr ind "Credit" then '+' else '-') := by
  intro i date sign cur amt ind info refv hm
  have hs := display_signOk h _ hm
  simpa [signOk] using hs

/-- The environment of the C8 witness: one account, a failing balance
fetch, and one Credit transaction of 42.50 GBP. -/
def envC8 : Env :=
  { envW with
    transactionsResp := fun _ => .resp 200 none (some (.obj [("Data", .obj [("Transaction",
      .arr [.obj [("CreditDebitIndicator", .str "Credit"),
        ("Amount", .obj [("Amount", .str "42.50"), ("Currency", .str "GBP")])]])])])) }

/-- Witness for C8: in a concrete successful display with one Credit
transaction, the rendered sign is the plus character. -/
theorem C8_transaction_sign_witness :
    ('+' : Char) = (if jsonOptEqStr (some (Json.str "Credit")) "Credit" then '+' else '-') :=
  C8_transaction_sign stW (.arr [.obj [("AccountId", .str "a1")]]) envC8 stW
    [Ev.accountHeader 1,
     Ev.accountInfo (some (.str "a1")) none none none (.str "N/A") (.str "N/A"),
     Ev.transactionsHeader,
     Ev.transactionItem 1 (.str "N/A") '+' (some (.str "GBP")) (some (.str "42.50"))
       (some (.str "Credit")) (.str "N/A") (.str "N/A")]
    [Call.balances (some (.str "a1")), Call.transactions (some (.str "a1"))]
    (by rfl) 1 (.str "N/A") '+' (some (.str "GBP")) (some (.str "42.50"))
    (some (.str "Credit")) (.str "N/A") (.str "N/A")
    (by simp)

theorem exchange_ok_true {st : ClientState} {code : String} {r : HttpResult}
    {st1 : ClientState} {c : List Call}
    (h : exchange_authorization_code st code r = .ok (st1, true, c)) :
    ∃ status loc fs, r = .resp status loc (some (.obj fs)) ∧
      st1 = { st with access_token := lookupField fs "access_token" } ∧
      c = [Call.exchange code] := by
  unfold exchange_authorization_code at h
  repeat' split at h
  all_goals simp_all
  obtain ⟨h1, h2⟩ := h
  subst h1
  subst h2
  exact ⟨_, _, _, ⟨rfl, rfl, rfl⟩, rfl⟩

theorem get_client_credentials_token_calls {st : ClientState} {r : HttpResult}
    {st1 : ClientState} {b : Bool} {c : List Call}
    (h : get_client_credentials_token st r = .ok (st1, b, c)) : c = [Call.token] := by
  unfold get_client_credentials_token at h
  repeat' split at h
  all_goals simp_all

theorem create_account_consent_calls {st : ClientState} {r : HttpResult}
    {st1 : ClientState} {v : Option Json} {c : List Call}
    (h : create_account_consent st r = .ok (st1, v, c)) : c = [Call.consent] := by
  unfold create_account_consent at h
  repeat' split at h
  all_goals simp_all

theorem authorize_consent_calls {st : ClientState} {r1 : HttpResult}
    {second : String → HttpResult} {st1 : ClientState} {v : Option String}
    {c : List Call}
    (h : authorize_consent st r1 second = .ok (st1, v, c)) :
    c = [Call.authorizeFirst] ∨ ∃ url, c = authCalls url := by
  unfold authorize_consent at h
  repeat' split at h
  all_goals first
    | (left
       simp only [Except.ok.injEq, Prod.mk.injEq] at h
       exact h.2.2.symm)
    | (right
       unfold authSecondStep at h
       repeat' split at h
       all_goals try (exact Except.noConfusion h)
       all_goals simp only [Except.ok.injEq, Prod.mk.injEq] at h
       all_goals exact ⟨_, h.2.2.symm⟩)

theorem mainModel_ok_exit {cfg : Config} {env : Env} {n : Nat}
    {st : ClientState} {cs : List Call}
    (h : mainModel cfg env = .ok (n, st, cs)) : n = 0 ∨ n = 1 := by
  unfold mainModel at h
  repeat' split at h
  all_goals try (exact Except.noConfusion h)
  all_goals simp_all

/-- C1: any run of main in which all five steps succeed (modelled by a
normal termination with result code zero) leaves the stored access_token
equal to the access_token field of the JSON body that the
authorization-code exchange received, and hence different from any other
value, in particular from an earlier client-credentials token whenever the
two differ. -/
theorem C1_final_token (cfg : Config) (env : Env) (st : ClientState)
    (cs : List Call) (h : mainModel cfg env = .ok (0, st, cs)) :
    ∃ code status loc fs,
      env.exchangeResp code = .resp status loc (some (.obj fs)) ∧
      st.access_token = lookupField fs "access_token" ∧
      ∀ t, t ≠ lookupField fs "access_token" → st.access_token ≠ t := by
  unfold mainModel at h
  repeat' split at h
  all_goals simp at h
  subst_vars
  obtain ⟨hst, hcs⟩ := h
  have e65 := display_account_details_frame
    (show display_account_details _ _ env = Except.ok (_, _, _) by assumption)
  have e54 := (get_accounts_ok
    (show get_accounts _ env.accountsResp = Except.ok (_, _, _) by assumption)).1
  obtain ⟨status, loc, fs, hresp, hst4, hc4⟩ := exchange_ok_true
    (show exchange_authorization_code _ _ _ = Except.ok (_, true, _) by assumption)
  refine ⟨_, status, loc, fs, hresp, ?_, ?_⟩
  · rw [← hst, e65, e54, hst4]
  · intro t ht
    rw [← hst, e65, e54, hst4]
    exact fun hh => ht hh.symm

/-- Witness for C1: in the concrete successful run of envW the final state
carries the token of the exchange response. -/
theorem C1_final_token_witness :
    ∃ code status loc fs,
      envW.exchangeResp code = .resp status loc (some (.obj fs)) ∧
      ({ stW with
          access_token := some (Json.str "tok2")
          consent_id := some (Json.str "cid") } : ClientState).access_token =
        lookupField fs "access_token" ∧
      ∀ t, t ≠ lookupField fs "access_token" →
        ({ stW with
            access_token := some (Json.str "tok2")
            consent_id := some (Json.str "cid") } : ClientState).access_token ≠ t :=
  C1_final_token cfgW envW
    { stW with
      access_token := some (Json.str "tok2")
      consent_id := some (Json.str "cid") }
    [Call.token, Call.consent, Call.authorizeFirst, Call.exchange "AC", Call.accounts,
      Call.balances (some (Json.str "a1")), Call.transactions (some (Json.str "a1"))]
    (by rfl)

theorem mainModel_zero_steps {cfg : Config} {env : Env} {st : ClientState}
    {cs : List Call} (h : mainModel cfg env = .ok (0, st, cs)) :
    FiveStepsSucceed cfg env := by
  unfold mainModel at h
  repeat' split at h
  all_goals simp at h
  subst_vars
  exact ⟨_, _, _, _, _, _, _, _, _, _, _, _, _, _, _, _,
    by assumption, by assumption, by assumption, by assumption, by simp_all,
    by assumption, by assumption, by assumption, by assumption⟩

theorem steps_mainModel_zero {cfg : Config} {env : Env}
    (h : FiveStepsSucceed cfg env) :
    ∃ st cs, mainModel cfg env = .ok (0, st, cs) := by
  obtain ⟨st1, c1, st2, cid, c2, st3, code, c3, st4, c4, st5, accs, c5, st6, evs, c6,
    h1, h2, h3, h4, h5, h6, h7, h8, h9⟩ := h
  have hb : (code == "") = false := beq_eq_false_iff_ne.mpr h5
  refine ⟨st6, c1 ++ c2 ++ c3 ++ c4 ++ c5 ++ c6, ?_⟩
  simp [mainModel, h1, h2, h3, h4, hb, h6, h7, h8, h9]

/-- C5: a missing configuration exits with status 1; with a configuration
the process exits 0 or 1, and exits 0 exactly when the five steps succeed
(FiveStepsSucceed); and when steps one to four succeed and get_accounts
returns an absent result, main terminates normally with exit code 1 and
the logged requests contain no balance or transaction call. -/
theorem C5_exit_codes :
    (∀ env, run_program none env = 1) ∧
    (∀ cfg env, run_program (some cfg) env = 0 ∨ run_program (some cfg) env = 1) ∧
    (∀ cfg env, run_program (some cfg) env = 0 ↔ FiveStepsSucceed cfg env) ∧
    (∀ cfg env st1 c1 st2 cid c2 st3 code c3 st4 c4,
      get_client_credentials_token (initClient cfg) env.tokenResp = .ok (st1, true, c1) →
      create_account_consent st1 env.consentResp = .ok (st2, cid, c2) →
      pyTruthy cid = true →
      authorize_consent st2 env.authResp env.authSecondResp = .ok (st3, some code, c3) →
      code ≠ "" →
      exchange_authorization_code st3 code (env.exchangeResp code) = .ok (st4, true, c4) →
      get_accounts st4 env.accountsResp = .ok (st4, none, [Call.accounts]) →
      mainModel cfg env = .ok (1, st4, c1 ++ c2 ++ c3 ++ c4 ++ [Call.accounts]) ∧
        (c1 ++ c2 ++ c3 ++ c4 ++ [Call.accounts]).all (fun c => !isBalTxnCall c) = true) := by
  refine ⟨fun env => rfl, ?_, ?_, ?_⟩
  · intro cfg env
    cases hm : mainModel cfg env with
    | error e => exact Or.inr (by simp [run_program, pyExitOf, hm])
    | ok v =>
      rcases v with ⟨n, st, cs⟩
      rcases mainModel_ok_exit hm with rfl | rfl
      · exact Or.inl (by simp [run_program, pyExitOf, hm])
      · exact Or.inr (by simp [run_program, pyExitOf, hm])
  · intro cfg env
    constructor
    · intro h0
      change pyExitOf (mainModel cfg env) = 0 at h0
      cases hm : mainModel cfg env with
      | error e =>
        rw [hm] at h0
        simp [pyExitOf] at h0
      | ok v =>
        rcases v with ⟨n, st, cs⟩
        rw [hm] at h0
        simp [pyExitOf] at h0
        subst h0
        exact mainModel_zero_steps hm
    · intro hs
      obtain ⟨st, cs, hm⟩ := steps_mainModel_zero hs
      simp [run_program, pyExitOf, hm]
  · intro cfg env st1 c1 st2 cid c2 st3 code c3 st4 c4 h1 h2 h3 h4 h5 h6 h7
    have hb : (code == "") = false := beq_eq_false_iff_ne.mpr h5
    constructor
    · simp [mainModel, h1, h2, h3, h4, hb, h6, h7]
    · have e1 := get_client_credentials_token_calls h1
      have e2 := create_account_consent_calls h2
      have e3 := authorize_consent_calls h4
      obtain ⟨_, _, _, _, _, e4⟩ := exchange_ok_true h6
      subst e1
      subst e2
      subst e4
      rcases e3 with rfl | ⟨url, rfl⟩
      all_goals simp [isBalTxnCall, authCalls]

/-- The environment of the C5 witness: the run of envW but with the
accounts fetch failing over the network. -/
def envW5 : Env := { envW with accountsResp := .exn }

/-- Client state after the concrete witness token call. -/
def st1W : ClientState := { stW with access_token := some (Json.str "tok1") }

/-- Client state after the concrete witness consent call. -/
def st2W : ClientState := { st1W with consent_id := some (Json.str "cid") }

/-- Client state after the concrete witness code exchange. -/
def st4W : ClientState := { st2W with access_token := some (Json.str "tok2") }

/-- Witness for C5: with steps one to four succeeding and the accounts
fetch absent, main exits 1 having made no balance or transaction call. -/
theorem C5_exit_codes_witness :
    mainModel cfgW envW5 = .ok (1, st4W,
      [Call.token] ++ [Call.consent] ++ [Call.authorizeFirst] ++
        [Call.exchange "AC"] ++ [Call.accounts]) ∧
    ([Call.token] ++ [Call.consent] ++ [Call.authorizeFirst] ++
        [Call.exchange "AC"] ++ [Call.accounts]).all
      (fun c => !isBalTxnCall c) = true :=
  C5_exit_codes.2.2.2 cfgW envW5 st1W [Call.token] st2W (some (Json.str "cid"))
    [Call.consent] st2W "AC" [Call.authorizeFirst] st4W [Call.exchange "AC"]
    (by rfl) (by rfl) (by rfl) (by rfl) (by decide) (by rfl) (by rfl)

theorem renderLoop_append (env : Env) (l1 l2 : List Json) (st : ClientState)
    (idx : Nat) :
    renderLoop st idx (l1 ++ l2) env =
      match renderLoop st idx l1 env with
      | .error e => .error e
      | .ok (s1, e1, c1) =>
        match renderLoop s1 (idx + l1.length) l2 env with
        | .error e => .error e
        | .ok (s2, e2, c2) => .ok (s2, e1 ++ e2, c1 ++ c2) := by
  induction l1 generalizing st idx with
  | nil =>
    simp only [List.nil_append, List.length_nil, Nat.add_zero, renderLoop]
    cases hr : renderLoop st idx l2 env with
    | error e => rfl
    | ok v =>
      rcases v with ⟨s2, e2, c2⟩
      simp
  | cons a t ih =>
    simp only [List.cons_append, List.length_cons, renderLoop]
    cases ha : renderAccount st idx a env with
    | error e => rfl
    | ok v =>
      rcases v with ⟨s1, e1, c1⟩
      simp only [List.append_eq]
      rw [ih]
      cases hb : renderLoop s1 (idx + 1) t env with
      | error e => rfl
      | ok w =>
        rcases w with ⟨s2, e2, c2⟩
        have harith : idx + 1 + t.length = idx + (t.length + 1) := by omega
        rw [harith]
        cases hc : renderLoop s2 (idx + (t.length + 1)) l2 env with
        | error e => simp [hc]
        | ok u =>
          rcases u with ⟨s3, e3, c3⟩
          simp [hc, List.append_assoc]

/-- C6: the display loop decomposes per account, so a failed (absent)
balance or transaction fetch for one account only suppresses that block of
that account: the account header and identity event are still emitted, the
other block is still rendered from its own fetch, the accounts before and
after are rendered exactly as they would be on their own, and the run is
not aborted; an absent fetch result renders as the empty block
(renderBalances none and renderTxns none are empty). -/
theorem C6_per_account_failure_tolerated (st : ClientState) (env : Env)
    (pre post : List Json) (fs : List (String × Json))
    (evsPre evsPost numEvs balEvs txnEvs : List Ev)
    (csPre csPost cb ct : List Call) (bal txns : Option Json)
    (hpre : renderLoop st 1 pre env = .ok (st, evsPre, csPre))
    (hnum : renderAcctNum fs = .ok numEvs)
    (hbal : get_account_balances st (lookupField fs "AccountId")
        (env.balancesResp (lookupField fs "AccountId")) = .ok (st, bal, cb))
    (hbalr : renderBalances bal = .ok balEvs)
    (htx : get_account_transactions st (lookupField fs "AccountId") 5
        (env.transactionsResp (lookupField fs "AccountId")) = .ok (st, txns, ct))
    (htxr : renderTxns txns = .ok txnEvs)
    (hpost : renderLoop st (pre.length + 2) post env = .ok (st, evsPost, csPost)) :
    display_account_details st (.arr (pre ++ Json.obj fs :: post)) env =
      .ok (st,
        evsPre ++
          (Ev.accountHeader (pre.length + 1) ::
            Ev.accountInfo (lookupField fs "AccountId") (lookupField fs "AccountType")
              (lookupField fs "AccountSubType") (lookupField fs "Currency")
              ((lookupField fs "Nickname").getD (Json.str "N/A"))
              ((lookupField fs "Status").getD (Json.str "N/A")) ::
            (numEvs ++ balEvs ++ txnEvs)) ++ evsPost,
        csPre ++ (cb ++ ct) ++ csPost) ∧
    renderBalances none = .ok [] ∧
    renderTxns none = .ok [] := by
  have e1 : 1 + pre.length = pre.length + 1 := Nat.add_comm 1 _
  have e2 : pre.length + 1 + 1 = pre.length + 2 := rfl
  refine ⟨?_, rfl, rfl⟩
  simp only [display_account_details, pyIterJson, renderLoop_append, hpre, renderLoop,
    renderAccount, hnum, hbal, hbalr, htx, htxr, e1, e2, hpost, List.append_assoc,
    List.cons_append, List.nil_append]

/-- The single Credit transaction returned by the witness environment. -/
def txnW : Json :=
  .obj [("CreditDebitIndicator", .str "Credit"),
    ("Amount", .obj [("Amount", .str "42.50"), ("Currency", .str "GBP")])]

/-- Witness for C6: one account whose balance fetch fails over the network
still shows its header, identity line and transaction block. -/
theorem C6_per_account_failure_tolerated_witness :
    display_account_details stW (.arr [Json.obj [("AccountId", Json.str "a1")]]) envC8 =
      .ok (stW,
        Ev.accountHeader 1 ::
          Ev.accountInfo (some (Json.str "a1")) none none none (Json.str "N/A")
            (Json.str "N/A") ::
          [Ev.transactionsHeader,
            Ev.transactionItem 1 (Json.str "N/A") '+' (some (Json.str "GBP"))
              (some (Json.str "42.50")) (some (Json.str "Credit")) (Json.str "N/A")
              (Json.str "N/A")],
        [Call.balances (some (Json.str "a1")), Call.transactions (some (Json.str "a1"))]) ∧
    renderBalances none = .ok [] ∧
    renderTxns none = .ok [] :=
  C6_per_account_failure_tolerated stW envC8 [] [] [("AccountId", Json.str "a1")]
    [] [] [] []
    [Ev.transactionsHeader,
      Ev.transactionItem 1 (Json.str "N/A") '+' (some (Json.str "GBP"))
        (some (Json.str "42.50")) (some (Json.str "Credit")) (Json.str "N/A")
        (Json.str "N/A")]
    [] [] [Call.balances (some (Json.str "a1"))]
    [Call.transactions (some (Json.str "a1"))] none (some (.arr [txnW]))
    (by rfl) (by rfl) (by rfl) (by rfl) (by rfl) (by rfl) (by rfl)

theorem findSplit_none {sep : List Char} :
    ∀ {s : List Char}, findSplit sep s = none → ∀ i, ¬ sep <+: s.drop i := by
  intro s
  induction s with
  | nil =>
    intro h i hp
    unfold findSplit at h
    split at h
    · exact Option.noConfusion h
    · rw [List.drop_nil, List.prefix_nil] at hp
      simp_all
  | cons c rest ih =>
    intro h i
    unfold findSplit at h
    split at h
    · exact absurd h Option.noConfusion
    · cases i with
      | zero =>
        intro hp
        exact absurd (List.isPrefixOf_iff_prefix.mpr hp) (by simp_all)
      | succ j =>
        rw [List.drop_succ_cons]
        split at h
        · exact absurd h Option.noConfusion
        · exact ih (by assumption) j

theorem findSplit_some {sep : List Char} :
    ∀ {s pre post : List Char}, findSplit sep s = some (pre, post) →
      s = pre ++ sep ++ post ∧ ∀ i, i < pre.length → ¬ sep <+: s.drop i := by
  intro s
  induction s with
  | nil =>
    intro pre post h
    unfold findSplit at h
    split at h
    · simp only [Option.some.injEq, Prod.mk.injEq] at h
      obtain ⟨h1, h2⟩ := h
      subst h1
      subst h2
      constructor
      · simp_all [List.isEmpty_iff]
      · intro i hi
        simp at hi
    · exact absurd h Option.noConfusion
  | cons c rest ih =>
    intro pre post h
    unfold findSplit at h
    split at h
    · simp only [Option.some.injEq, Prod.mk.injEq] at h
      obtain ⟨h1, h2⟩ := h
      subst h1
      subst h2
      have hp : sep <+: c :: rest := List.isPrefixOf_iff_prefix.mp (by assumption)
      constructor
      · conv_lhs => rw [← List.take_append_drop sep.length (c :: rest)]
        rw [← List.prefix_iff_eq_take.mp hp]
        simp
      · intro i hi
        simp at hi
    · split at h
      · simp only [Option.some.injEq, Prod.mk.injEq] at h
        obtain ⟨h1, h2⟩ := h
        subst h1
        subst h2
        obtain ⟨hs, hmin⟩ := ih (by assumption)
        constructor
        · simp only [List.cons_append]
          rw [← hs]
        · intro i hi
          cases i with
          | zero =>
            intro hp
            exact absurd (List.isPrefixOf_iff_prefix.mpr hp) (by simp_all)
          | succ j =>
            rw [List.drop_succ_cons]
            exact hmin j (by simpa using hi)
      · exact absurd h Option.noConfusion

theorem splitBefore_prefix (sep s : List Char) : splitBefore sep s <+: s := by
  unfold splitBefore
  split
  · exact List.prefix_refl s
  · rename_i pre post heq
    obtain ⟨hs, _⟩ := findSplit_some heq
    exact ⟨sep ++ post, by rw [hs]; simp⟩

theorem splitBefore_no_occ (sep s : List Char) :
    ∀ i, i < (splitBefore sep s).length → ¬ sep <+: s.drop i := by
  unfold splitBefore
  split
  · rename_i heq
    intro i _
    exact findSplit_none heq i
  · rename_i pre post heq
    exact (findSplit_some heq).2

theorem splitBefore_at_end (sep s : List Char) :
    splitBefore sep s = s ∨ sep <+: s.drop (splitBefore sep s).length := by
  unfold splitBefore
  split
  · exact Or.inl rfl
  · rename_i pre post heq
    obtain ⟨hs, _⟩ := findSplit_some heq
    right
    rw [hs, List.append_assoc, List.drop_left]
    exact List.prefix_append sep post

theorem singleton_prefix_iff {c : Char} {l : List Char} :
    [c] <+: l ↔ l.head? = some c := by
  cases l with
  | nil => simp [List.prefix_nil]
  | cons x xs =>
    constructor
    · rintro ⟨t, ht⟩
      simp only [List.singleton_append, List.cons.injEq] at ht
      simp [ht.1]
    · intro h
      simp only [List.head?_cons, Option.some.injEq] at h
      exact ⟨xs, by simp [h]⟩

theorem singleton_prefix_drop {c : Char} {l : List Char} {i : Nat} :
    ([c] <+: l.drop i) ↔ l[i]? = some c := by
  rw [singleton_prefix_iff, List.head?_drop]

theorem prefix_getElem?_eq {p l : List Char} (h : p <+: l) {i : Nat}
    (hi : i < p.length) : p[i]? = l[i]? := by
  have hp := List.prefix_iff_eq_take.mp h
  conv_lhs => rw [hp]
  rw [List.getElem?_take]
  simp [hi]

theorem prefix_drop_mono {p l : List Char} (h : p <+: l) (i : Nat) :
    p.drop i <+: l.drop i := by
  rw [List.prefix_iff_eq_take.mp h, List.drop_take]
  exact List.take_prefix _ _

/-- C3 amended: on any string containing "code=", the extraction yields the
substring of the text after the first occurrence of "code=" that ends at
the first following occurrence of "&" or of "code=" itself, whichever
comes first (or at the end of the string when neither occurs): the
existential exhibits the decomposition at the first occurrence, the
returned prefix r free of both markers, and the reason r ends where it
does. -/
theorem C3_amended_extraction (s : String) (h : strContains "code=" s = true) :
    ∃ pre post r,
      s.toList = pre ++ "code=".toList ++ post ∧
      (∀ i, i < pre.length → ¬ "code=".toList <+: s.toList.drop i) ∧
      r <+: post ∧
      (∀ i, i < r.length → ¬ "code=".toList <+: post.drop i ∧ ¬ [ '&' ] <+: post.drop i) ∧
      (r = post ∨ "code=".toList <+: post.drop r.length ∨ [ '&' ] <+: post.drop r.length) ∧
      pyExtractCode s = some (String.mk r) := by
  unfold strContains at h
  cases heq : findSplit "code=".toList s.toList with
  | none => rw [heq] at h; simp at h
  | some pp =>
    rcases pp with ⟨pre, post⟩
    obtain ⟨hs, hmin⟩ := findSplit_some heq
    have hp1 : splitBefore "code=".toList post <+: post := splitBefore_prefix _ _
    have hrp1 : splitBefore [ '&' ] (splitBefore "code=".toList post) <+:
        splitBefore "code=".toList post := splitBefore_prefix _ _
    refine ⟨pre, post, splitBefore [ '&' ] (splitBefore "code=".toList post),
      hs, hmin, hrp1.trans hp1, ?_, ?_, ?_⟩
    · intro i hi
      have hip1 : i < (splitBefore "code=".toList post).length :=
        lt_of_lt_of_le hi hrp1.length_le
      refine ⟨splitBefore_no_occ _ _ i hip1, ?_⟩
      have hnp : ¬ [ '&' ] <+: (splitBefore "code=".toList post).drop i :=
        splitBefore_no_occ _ _ i hi
      rw [singleton_prefix_drop] at hnp ⊢
      rw [← prefix_getElem?_eq hp1 hip1]
      exact hnp
    · rcases splitBefore_at_end [ '&' ] (splitBefore "code=".toList post) with he | ho
      · rcases splitBefore_at_end "code=".toList post with he2 | ho2
        · exact Or.inl (he.trans he2)
        · exact Or.inr (Or.inl (by rw [he]; exact ho2))
      · exact Or.inr (Or.inr (ho.trans (prefix_drop_mono hp1 _)))
    · unfold pyExtractCode
      rw [heq]

/-- C3 counterexample: the claim describes the extraction as the substring
strictly between the first "code=" and the next "&" (or end of string) for
ANY string containing "code=".  On "code=xcode=y&z" the code truncates at
the second occurrence of "code=" and yields "x", while the claimed reading
(claimBetween) yields "xcode=y"; the universally quantified claim is
false. -/
theorem C3_counterexample :
    pyExtractCode "code=xcode=y&z" = some "x" ∧
    claimBetween "code=xcode=y&z" = some "xcode=y" ∧
    ¬ ("x" : String) = "xcode=y" ∧
    ¬ (∀ s : String, strContains "code=" s = true → pyExtractCode s = claimBetween s) :=
  ⟨rfl, rfl, by decide,
    fun hall => absurd (hall "code=xcode=y&z" (by decide)) (by decide)⟩

/-- Witness for C3: the particular extraction of the claim, and the
amended theorem applied to it. -/
theorem C3_amended_extraction_witness :
    pyExtractCode "a&code=abc123&state=ABC" = some "abc123" ∧
    (∃ pre post r,
      ("a&code=abc123&state=ABC" : String).toList = pre ++ "code=".toList ++ post ∧
      (∀ i, i < pre.length →
        ¬ "code=".toList <+: ("a&code=abc123&state=ABC" : String).toList.drop i) ∧
      r <+: post ∧
      (∀ i, i < r.length → ¬ "code=".toList <+: post.drop i ∧ ¬ [ '&' ] <+: post.drop i) ∧
      (r = post ∨ "code=".toList <+: post.drop r.length ∨ [ '&' ] <+: post.drop r.length) ∧
      pyExtractCode "a&code=abc123&state=ABC" = some (String.mk r)) :=
  ⟨by decide, C3_amended_extraction "a&code=abc123&state=ABC" (by decide)⟩

/-- C2 counterexample: the claim says every shape other than the three
documented ones returns an absent result.  A redirect without a code
followed by a 200 second response whose JSON body is the number 5 makes
the Python expression "redirectUri" in json_response raise an uncaught
TypeError (argument of type int is not iterable): the call raises instead
of returning an absent result. -/
theorem C2_counterexample :
    authorize_consent stW (.resp 302 (some "http://auth2") none)
        (fun _ => .resp 200 none (some (.num 5))) = .error .typeError ∧
    authorize_consent stW (.resp 302 (some "http://auth2") none)
        (fun _ => .resp 200 none (some (.num 5))) ≠
      .ok (stW, none, [Call.authorizeFirst, Call.authorizeSecond "http://auth2"]) :=
  ⟨rfl, fun h => Except.noConfusion h⟩

/-- C2 amended: authorize_consent returns the extracted code under the
three documented shapes, and an absent result for every other shape in
which the inspected values have the expected types (non-redirect or failed
first response; failed, non-JSON-200, or JSON-object-without-redirectUri
second response; Location or redirectUri without a code; non-200
non-redirect second status); a 200 second response whose JSON body is not
of the expected type (here: a number) raises an uncaught TypeError
instead. -/
theorem C2_authorize_shapes (st : ClientState) (second : String → HttpResult) :
    (∀ s1 loc b1, isRedirectStatus s1 = true → strContains "code=" loc = true →
      authorize_consent st (.resp s1 (some loc) b1) second =
        .ok (st, pyExtractCode loc, [Call.authorizeFirst])) ∧
    (∀ s1 loc b1 loc2 fs u, isRedirectStatus s1 = true → strContains "code=" loc = false →
      second loc = .resp 200 loc2 (some (.obj fs)) →
      lookupField fs "redirectUri" = some (.str u) → strContains "code=" u = true →
      authorize_consent st (.resp s1 (some loc) b1) second =
        .ok (st, pyExtractCode u, authCalls loc)) ∧
    (∀ s1 loc b1 s2 loc2 b2, isRedirectStatus s1 = true → strContains "code=" loc = false →
      second loc = .resp s2 (some loc2) b2 → s2 ≠ 200 → isRedirectStatus s2 = true →
      strContains "code=" loc2 = true →
      authorize_consent st (.resp s1 (some loc) b1) second =
        .ok (st, pyExtractCode loc2, authCalls loc)) ∧
    (∀ s1 loc1 b1, isRedirectStatus s1 = false →
      authorize_consent st (.resp s1 loc1 b1) second =
        .ok (st, none, [Call.authorizeFirst])) ∧
    (authorize_consent st .exn second = .ok (st, none, [Call.authorizeFirst])) ∧
    (∀ s1 loc b1, isRedirectStatus s1 = true → strContains "code=" loc = false →
      second loc = .exn →
      authorize_consent st (.resp s1 (some loc) b1) second = .ok (st, none, authCalls loc)) ∧
    (∀ s1 loc b1 loc2, isRedirectStatus s1 = true → strContains "code=" loc = false →
      second loc = .resp 200 loc2 none →
      authorize_consent st (.resp s1 (some loc) b1) second = .ok (st, none, authCalls loc)) ∧
    (∀ s1 loc b1 loc2 fs, isRedirectStatus s1 = true → strContains "code=" loc = false →
      second loc = .resp 200 loc2 (some (.obj fs)) → lookupField fs "redirectUri" = none →
      authorize_consent st (.resp s1 (some loc) b1) second = .ok (st, none, authCalls loc)) ∧
    (∀ s1 loc b1 loc2 fs u, isRedirectStatus s1 = true → strContains "code=" loc = false →
      second loc = .resp 200 loc2 (some (.obj fs)) →
      lookupField fs "redirectUri" = some (.str u) → strContains "code=" u = false →
      authorize_consent st (.resp s1 (some loc) b1) second = .ok (st, none, authCalls loc)) ∧
    (∀ s1 loc b1 s2 loc2 b2, isRedirectStatus s1 = true → strContains "code=" loc = false →
      second loc = .resp s2 loc2 b2 → s2 ≠ 200 → isRedirectStatus s2 = false →
      authorize_consent st (.resp s1 (some loc) b1) second = .ok (st, none, authCalls loc)) ∧
    (∀ s1 loc b1 s2 loc2 b2, isRedirectStatus s1 = true → strContains "code=" loc = false →
      second loc = .resp s2 (some loc2) b2 → s2 ≠ 200 → isRedirectStatus s2 = true →
      strContains "code=" loc2 = false →
      authorize_consent st (.resp s1 (some loc) b1) second = .ok (st, none, authCalls loc)) ∧
    (∀ s1 loc b1 loc2 n, isRedirectStatus s1 = true → strContains "code=" loc = false →
      second loc = .resp 200 loc2 (some (.num n)) →
      authorize_consent st (.resp s1 (some loc) b1) second = .error .typeError) := by
  refine ⟨?_, ?_, ?_, ?_, rfl, ?_, ?_, ?_, ?_, ?_, ?_, ?_⟩
  · intro s1 loc b1 h1 h2
    simp [authorize_consent, h1, h2]
  · intro s1 loc b1 loc2 fs u h1 h2 h3 h4 h5
    simp [authorize_consent, authSecondStep, h1, h2, h3, h4, h5]
  · intro s1 loc b1 s2 loc2 b2 h1 h2 h3 h4 h5 h6
    simp [authorize_consent, authSecondStep, h1, h2, h3, h4, h5, h6]
  · intro s1 loc1 b1 h1
    simp [authorize_consent, h1]
  · intro s1 loc b1 h1 h2 h3
    simp [authorize_consent, authSecondStep, h1, h2, h3]
  · intro s1 loc b1 loc2 h1 h2 h3
    simp [authorize_consent, authSecondStep, h1, h2, h3]
  · intro s1 loc b1 loc2 fs h1 h2 h3 h4
    simp [authorize_consent, authSecondStep, h1, h2, h3, h4]
  · intro s1 loc b1 loc2 fs u h1 h2 h3 h4 h5
    simp [authorize_consent, authSecondStep, h1, h2, h3, h4, h5]
  · intro s1 loc b1 s2 loc2 b2 h1 h2 h3 h4 h5
    simp [authorize_consent, authSecondStep, h1, h2, h3, h4, h5]
  · intro s1 loc b1 s2 loc2 b2 h1 h2 h3 h4 h5 h6
    simp [authorize_consent, authSecondStep, h1, h2, h3, h4, h5, h6]
  · intro s1 loc b1 loc2 n h1 h2 h3
    simp [authorize_consent, authSecondStep, h1, h2, h3]

/-- Witness for C2 amended: shape (a), an immediate redirect whose
Location carries the code. -/
theorem C2_authorize_shapes_witness :
    authorize_consent stW (.resp 302 (some "http://cb?code=AC&state=ABC") none)
        (fun _ => .exn) =
      .ok (stW, pyExtractCode "http://cb?code=AC&state=ABC", [Call.authorizeFirst]) ∧
    pyExtractCode "http://cb?code=AC&state=ABC" = some "AC" :=
  ⟨(C2_authorize_shapes stW (fun _ => .exn)).1 302 "http://cb?code=AC&state=ABC" none
    (by decide) (by decide), by decide⟩
